import Mathlib

/-!
Verification development for the chainlit chatbot repository
(`chatbot.py`, `my_secrets.py`).

The Python source is shallowly embedded below:

* pure helpers (`get_student_info`, the weather-sentence formatter, the
  environment-variable checks of `my_secrets.py`, the `json.dump` call of
  `end`) become Lean functions;
* the streamed turn handler `main` becomes an explicit state transformer
  over a list of stream events, with the chainlit session key-value store
  and the UI message states made explicit;
* fallible Python steps (`requests.get`, `Response.json()`, subscript
  access on parsed JSON) return `Except PyError _`, so a raised exception
  is an `Except.error` value;
* JSON numbers are modelled as integers (`Int`); none of the verified
  properties depends on float rendering.
-/

/-- Message roles used by `chatbot.py` (`"user"` at line 166,
`"assistant"` at line 193). The tool role never reaches the stored
history in this code. -/
inductive Role where
  | user
  | assistant
  deriving DecidableEq, Repr

/-- One entry of the `chat_history` list: a `{"role": ..., "content": ...}`
dict (chatbot.py lines 164-169 and 191-196). -/
structure ChatMsg where
  role : Role
  content : String
  deriving DecidableEq, Repr

/-- The string Python renders for a `Role` value. -/
def roleString : Role → String
  | .user => "user"
  | .assistant => "assistant"

/-- Python exceptions that the embedded fallible steps can raise. -/
inductive PyError where
  | keyError (key : String)
  | typeError
  | jsonDecodeError
  | requestException
  deriving DecidableEq, Repr

/-- Parsed JSON values, as returned by `Response.json()`.
Numbers are modelled as `Int` (see the header note). -/
inductive Json where
  | null
  | bool (b : Bool)
  | num (n : Int)
  | str (s : String)
  | arr (xs : List Json)
  | obj (fields : List (String × Json))

/-- Python subscript access `j[key]` on a parsed JSON value: a lookup in a
dict raises `KeyError` when the key is absent, and subscripting a
non-dict value by a string raises `TypeError`. -/
def Json.item (j : Json) (key : String) : Except PyError Json :=
  match j with
  | .obj fields =>
      match fields.find? (fun kv => kv.1 == key) with
      | some kv => .ok kv.2
      | none => .error (.keyError key)
  | _ => .error .typeError

mutual

/-- Python `repr` of a parsed JSON value (used by `str` on containers). -/
def pyRepr : Json → String
  | .null => "None"
  | .bool true => "True"
  | .bool false => "False"
  | .num n => toString n
  | .str s => "\x27" ++ s ++ "\x27"
  | .arr xs => "[" ++ pyReprElems xs ++ "]"
  | .obj fs => "\x7b" ++ pyReprFields fs ++ "\x7d"

/-- Comma-separated `repr`s of list elements. -/
def pyReprElems : List Json → String
  | [] => ""
  | [x] => pyRepr x
  | x :: y :: xs => pyRepr x ++ ", " ++ pyReprElems (y :: xs)

/-- Comma-separated `repr`s of dict entries. -/
def pyReprFields : List (String × Json) → String
  | [] => ""
  | [kv] => "\x27" ++ kv.1 ++ "\x27: " ++ pyRepr kv.2
  | kv :: kw :: fs => "\x27" ++ kv.1 ++ "\x27: " ++ pyRepr kv.2 ++ ", " ++ pyReprFields (kw :: fs)

end

/-- Python `str` of a parsed JSON value, as applied by f-string
interpolation (`str` on a Python `str` is the string itself, on
containers it is `repr`). -/
def pyStr : Json → String
  | .null => "None"
  | .bool true => "True"
  | .bool false => "False"
  | .num n => toString n
  | .str s => s
  | .arr xs => pyRepr (.arr xs)
  | .obj fs => pyRepr (.obj fs)

/-! ## Student directory tool (`chatbot.py` lines 64-81) -/

/-- The fixed student dict literal of `get_student_info`
(chatbot.py lines 70-75), i.e. the effect of `students.get(student_id)`. -/
def students : Int → Option (String × Int × String)
  | 1 => some ("John Doe", 20, "Computer Science")
  | 2 => some ("Jane Smith", 22, "Mathematics")
  | 3 => some ("Alice Johnson", 21, "Physics")
  | 4 => some ("Bob Brown", 23, "Chemistry")
  | _ => none

/-- `get_student_info` (chatbot.py lines 66-81). Every student record is a
non-empty dict, hence truthy, so `if student_info:` is a `some`-test. -/
def get_student_info (student_id : Int) : String :=
  match students student_id with
  | some (name, age, major) =>
      "Student ID: " ++ toString student_id ++ ", Name: " ++ name ++
        ", Age: " ++ toString age ++ ", Major: " ++ major ++ "."
  | none => "No student found with ID " ++ toString student_id ++ "."

/-! ## Environment loading (`my_secrets.py`) -/

/-- The five fields `Secrets.__init__` copies from the module-level
variables (my_secrets.py lines 42-48). -/
structure Secrets where
  gemini_api_key : String
  gemini_api_url : String
  gemini_api_model : String
  weather_api_key : String
  weather_api_url : String
  deriving DecidableEq, Repr

/-- Python truthiness test `not value` for an `os.getenv` result:
true when the variable is absent (`None`) or the empty string. -/
def isBlank : Option String → Bool
  | none => true
  | some s => s.isEmpty

/-- The diagnostic printed for a missing variable
(my_secrets.py lines 9-11 and the analogous messages below it). -/
def diagMsg (name : String) : String :=
  "[red]Error:[/red] [green]" ++ name ++ "[/green] is not set in the environment variables."

/-- The five required variables, in the order `my_secrets.py` checks them
(lines 7-40). -/
def requiredVarNames : List String :=
  ["GEMINI_API_KEY", "GEMINI_API_URL", "GEMINI_API_MODEL",
   "WEATHER_API_URL", "WEATHER_API_KEY"]

/-- Module-level behaviour of `my_secrets.py` (lines 5-48): each variable
is read and tested in turn; the first blank one prints its diagnostic and
calls `exit(1)` (modelled as `.error (message, exit_code)`); when all are
present a `Secrets` value is built. -/
def loadSecrets (env : String → Option String) : Except (String × Nat) Secrets :=
  if isBlank (env "GEMINI_API_KEY") then .error (diagMsg "GEMINI_API_KEY", 1)
  else if isBlank (env "GEMINI_API_URL") then .error (diagMsg "GEMINI_API_URL", 1)
  else if isBlank (env "GEMINI_API_MODEL") then .error (diagMsg "GEMINI_API_MODEL", 1)
  else if isBlank (env "WEATHER_API_URL") then .error (diagMsg "WEATHER_API_URL", 1)
  else if isBlank (env "WEATHER_API_KEY") then .error (diagMsg "WEATHER_API_KEY", 1)
  else .ok
    { gemini_api_key := (env "GEMINI_API_KEY").getD ""
      gemini_api_url := (env "GEMINI_API_URL").getD ""
      gemini_api_model := (env "GEMINI_API_MODEL").getD ""
      weather_api_key := (env "WEATHER_API_KEY").getD ""
      weather_api_url := (env "WEATHER_API_URL").getD "" }

/-- The first blank variable in check order, if any. -/
def firstBlankVar (env : String → Option String) : Option String :=
  requiredVarNames.find? (fun v => isBlank (env v))

/-! ## Session-end persistence (`chatbot.py` lines 206-210) -/

/-- One lowercase hex digit, as Python's `\uXXXX` escapes use. -/
def hexDigit (n : Nat) : Char :=
  if n < 10 then Char.ofNat (48 + n) else Char.ofNat (87 + n)

/-- Four lowercase hex digits of `n % 0x10000`. -/
def toHex4 (n : Nat) : String :=
  String.mk [hexDigit (n / 4096 % 16), hexDigit (n / 256 % 16),
             hexDigit (n / 16 % 16), hexDigit (n % 16)]

/-- `json.dump` escaping of one character with the default
`ensure_ascii=True`: named escapes for the JSON specials, the character
itself for printable ASCII, `\uXXXX` otherwise (a surrogate pair above
the BMP). -/
def escChar (c : Char) : String :=
  if c = '"' then "\\\""
  else if c = '\\' then "\\\\"
  else if c = '\n' then "\\n"
  else if c = '\r' then "\\r"
  else if c = '\t' then "\\t"
  else if c = Char.ofNat 8 then "\\b"
  else if c = Char.ofNat 12 then "\\f"
  else if 32 ≤ c.toNat && c.toNat ≤ 126 then String.mk [c]
  else if c.toNat < 65536 then "\\u" ++ toHex4 c.toNat
  else "\\u" ++ toHex4 (55296 + (c.toNat - 65536) / 1024) ++
       "\\u" ++ toHex4 (56320 + (c.toNat - 65536) % 1024)

/-- `json.dump` rendering of a Python string literal. -/
def jsonStringLit (s : String) : String :=
  "\"" ++ String.join (s.data.map escChar) ++ "\""

/-- `json.dump(entry, indent=4)` rendering of one history dict, at one
level of nesting inside the array (keys in insertion order: `role`,
then `content`). -/
def dumpEntry (m : ChatMsg) : String :=
  "    \x7b\n        \"role\": " ++ jsonStringLit (roleString m.role) ++
  ",\n        \"content\": " ++ jsonStringLit m.content ++ "\n    \x7d"

/-- `json.dump(chat_history, f, indent=4)` rendering of the whole history
list (chatbot.py line 210). -/
def dumpHistory (h : List ChatMsg) : String :=
  match h with
  | [] => "[]"
  | _ => "[\n" ++ String.intercalate ",\n" (h.map dumpEntry) ++ "\n]"

/-- `end` (chatbot.py lines 206-210): opens `chat_history.json` with mode
`"w"` — which truncates, so the previous file content `prevFile` is
discarded — and writes the serialized history. The result is the file
content after the session ends. -/
def end_session (prevFile : String) (stored : List ChatMsg) : String :=
  dumpHistory stored

/-! ## Weather tool (`chatbot.py` lines 20-61) -/

/-- An HTTP response as `requests` presents it: a status code, and the
result of calling `.json()` on the body (which raises on a malformed
body). -/
structure HttpResponse where
  status_code : Nat
  jsonBody : Except PyError Json

/-- The URL string built by the f-string at chatbot.py line 56. Note the
two consecutive slashes in `"//current.json"`, copied verbatim from the
source. -/
def weatherRequestUrl (sec : Secrets) (location : String) : String :=
  sec.weather_api_url ++ "//current.json?key=" ++ sec.weather_api_key ++ "&q=" ++ location

/-- The URL as §6 of the spec words it: the base joined to
`/current.json` by a single slash. (Spec-side definition, for comparison
with `weatherRequestUrl`.) -/
def specWeatherUrl (sec : Secrets) (location : String) : String :=
  sec.weather_api_url ++ "/current.json?key=" ++ sec.weather_api_key ++ "&q=" ++ location

/-- The fixed non-200 error sentence (chatbot.py line 59). -/
def weatherErrorSentence (location : String) : String :=
  "Error fetching weather data for " ++ location ++ ". Please try again later."

/-- The eleven JSON fields interpolated into the success sentence at
chatbot.py line 61. -/
structure WeatherFields where
  name : Json
  region : Json
  country : Json
  localtime : Json
  temp_c : Json
  condText : Json
  feelslike_c : Json
  wind_kph : Json
  wind_dir : Json
  humidity : Json
  uv : Json

/-- The subscript accesses of chatbot.py line 61, in the order Python
evaluates them inside the f-string; any missing key or non-dict value
raises. -/
def extractWeatherFields (data : Json) : Except PyError WeatherFields := do
  let loc ← data.item "location"
  let name ← loc.item "name"
  let region ← loc.item "region"
  let country ← loc.item "country"
  let localtime ← loc.item "localtime"
  let current ← data.item "current"
  let temp_c ← current.item "temp_c"
  let condition ← current.item "condition"
  let condText ← condition.item "text"
  let feelslike_c ← current.item "feelslike_c"
  let wind_kph ← current.item "wind_kph"
  let wind_dir ← current.item "wind_dir"
  let humidity ← current.item "humidity"
  let uv ← current.item "uv"
  return { name, region, country, localtime, temp_c, condText,
           feelslike_c, wind_kph, wind_dir, humidity, uv }

/-- The success sentence of chatbot.py line 61, with each field rendered
by Python `str` as f-string interpolation does. -/
def weatherSentence (f : WeatherFields) : String :=
  "Current weather in " ++ pyStr f.name ++ ", " ++ pyStr f.region ++ ", " ++
  pyStr f.country ++ " as of " ++ pyStr f.localtime ++ " is " ++
  pyStr f.temp_c ++ "°C (" ++ pyStr f.condText ++ "), feels like " ++
  pyStr f.feelslike_c ++ "°C, wind " ++ pyStr f.wind_kph ++ " km/h " ++
  pyStr f.wind_dir ++ ", humidity " ++ pyStr f.humidity ++
  "% and UV index is " ++ pyStr f.uv ++ "."

/-- The return expression of chatbot.py line 61: extract the fields from
the parsed body, then format; a raised `KeyError`/`TypeError` escapes. -/
def formatWeather (data : Json) : Except PyError String := do
  let f ← extractWeatherFields data
  return weatherSentence f

/-- `get_current_weather` (chatbot.py lines 22-61). `http` models
`requests.get`: the response delivered for a given URL, or a raised
request exception. -/
def get_current_weather (sec : Secrets) (http : String → Except PyError HttpResponse)
    (location : String) : Except PyError String := do
  let result ← http (weatherRequestUrl sec location)
  if result.status_code ≠ 200 then
    return weatherErrorSentence location
  else
    let data ← result.jsonBody
    formatWeather data

/-! ## The streamed turn handler `main` (`chatbot.py` lines 157-203) -/

/-- One event yielded by `result.stream_events()`: either a
`raw_response_event` whose data is a `ResponseTextDeltaEvent` (the only
kind the loop body at lines 182-189 reacts to), or anything else. -/
inductive StreamEvent where
  | textDelta (delta : String)
  | other
  deriving DecidableEq, Repr

/-- Whether a stream event is a text delta. -/
def isTextDelta : StreamEvent → Bool
  | .textDelta _ => true
  | .other => false

/-- The delta carried by a text-delta event. -/
def deltaText : StreamEvent → Option String
  | .textDelta d => some d
  | .other => none

/-- How one orchestrator run behaves, as observed at the `async for`
loop: either the stream completes after yielding `events`, or an
exception is raised after the listed events were processed. -/
inductive RunOutcome where
  | completes (events : List StreamEvent)
  | raisesAfter (events : List StreamEvent)

/-- The user-visible message state of one turn: whether the
`"Thinking..."` placeholder message is still displayed, whether the live
response message has been sent, its current content, and how many times
the placeholder → live-message replacement has fired. -/
structure TurnUi where
  thinkingShown : Bool
  responseSent : Bool
  responseContent : String
  replacements : Nat
  deriving DecidableEq, Repr

/-- The loop state of chatbot.py lines 177-189: the `first_response`
flag plus the UI state. -/
structure LoopState where
  firstResponse : Bool
  ui : TurnUi
  deriving DecidableEq, Repr

/-- One iteration of the `async for` loop (chatbot.py lines 181-189):
on a text delta, if `first_response` is still set, remove the thinking
message, send the response message and clear the flag; then stream the
delta into the response content. Other events are ignored. -/
def stepEvent (s : LoopState) (e : StreamEvent) : LoopState :=
  match e with
  | .textDelta d =>
      let s :=
        if s.firstResponse then
          { firstResponse := false
            ui := { s.ui with
                      thinkingShown := false
                      responseSent := true
                      replacements := s.ui.replacements + 1 } }
        else s
      { s with ui := { s.ui with responseContent := s.ui.responseContent ++ d } }
  | .other => s

/-- The state on entry to the loop: the thinking message was sent (line
160), `response_message` was created empty and not yet sent (lines
177-179), `first_response = True` (line 180). -/
def initLoopState : LoopState :=
  { firstResponse := true
    ui := { thinkingShown := true
            responseSent := false
            responseContent := ""
            replacements := 0 } }

/-- Running the whole event loop. -/
def runLoop (events : List StreamEvent) : LoopState :=
  events.foldl stepEvent initLoopState

/-- The placeholder text sent at chatbot.py line 159. -/
def thinkingText : String := "Thinking..."

/-- The generic turn-failure message of chatbot.py lines 200-202. -/
def genericError : String :=
  "An error occurred while processing your request. Please try again."

/-- What a finished turn leaves behind: the value stored under
`"chat_history"` in the chainlit session, and the final UI state. -/
structure TurnOutcome where
  sessionHistory : List ChatMsg
  ui : TurnUi
  deriving DecidableEq, Repr

/-- `main` (chatbot.py lines 158-203), for a session whose stored
`chat_history` is `stored` and an inbound message `userText`.

Aliasing, faithfully to line 163: `cl.user_session.get("chat_history")
or []` yields the stored list object itself when it is non-empty
(truthy), and a fresh list otherwise; in-place `append`s are visible in
the session exactly when the local name aliases the stored list. On the
success path `cl.user_session.set` (line 197) stores the local list, so
aliasing does not matter there; on the failure path `set` is never
called, so only an aliased append survives. The `try`/`except Exception`
of lines 171-203 is the total `match` on the run outcome: no exception
escapes the turn. In the except branch the response content is replaced
by the generic message and `update()` is called; the thinking message is
only ever removed inside the loop, on the first delta. -/
def onMessage (stored : List ChatMsg) (userText : String) (run : RunOutcome) : TurnOutcome :=
  let aliased := !stored.isEmpty
  let hist1 := stored ++ [⟨Role.user, userText⟩]
  match run with
  | .completes events =>
      let s := runLoop events
      let hist2 := hist1 ++ [⟨Role.assistant, s.ui.responseContent⟩]
      { sessionHistory := hist2, ui := s.ui }
  | .raisesAfter events =>
      let s := runLoop events
      { sessionHistory := if aliased then hist1 else stored
        ui := { s.ui with responseContent := genericError } }

/-- The texts a user can see at the end of a turn: the thinking
placeholder when it was never removed, and the response message content
(the `except` branch updates it even when it was never streamed to, the
most generous reading of `update()` on an unsent message). -/
def visibleTexts (ui : TurnUi) : List String :=
  (if ui.thinkingShown then [thinkingText] else []) ++ [ui.responseContent]

/-- Concatenation of a list of strings, used to describe the streamed
response content. -/
def joinAll : List String → String
  | [] => ""
  | x :: xs => x ++ joinAll xs

/-- A well-formed weather payload carrying every documented field, used
to instantiate the success path on a concrete input. -/
def sampleWeatherPayload : Json :=
  Json.obj
    [("location", Json.obj
        [("name", Json.str "London"),
         ("region", Json.str "England"),
         ("country", Json.str "United Kingdom"),
         ("localtime", Json.str "2023-10-15 14:30")]),
     ("current", Json.obj
        [("temp_c", Json.num 18),
         ("condition", Json.obj [("text", Json.str "Partly cloudy")]),
         ("feelslike_c", Json.num 17),
         ("wind_kph", Json.num 15),
         ("wind_dir", Json.str "SW"),
         ("humidity", Json.num 65),
         ("uv", Json.num 4)])]

/-! ## Helper lemmas -/

/-- Invariant of the `async for` loop, for an arbitrary starting state:
the `first_response` flag survives exactly when no delta occurs, the
placeholder → live-message replacement fires exactly once on the first
delta while `first_response` is set, and the response content
accumulates every delta in order. -/
theorem stepEvent_foldl_spec (events : List StreamEvent) (s : LoopState) :
    (events.foldl stepEvent s).firstResponse = (s.firstResponse && !events.any isTextDelta) ∧
    (events.foldl stepEvent s).ui.replacements =
      s.ui.replacements + (if s.firstResponse && events.any isTextDelta then 1 else 0) ∧
    (events.foldl stepEvent s).ui.thinkingShown =
      (if s.firstResponse && events.any isTextDelta then false else s.ui.thinkingShown) ∧
    (events.foldl stepEvent s).ui.responseSent =
      (if s.firstResponse && events.any isTextDelta then true else s.ui.responseSent) ∧
    (events.foldl stepEvent s).ui.responseContent =
      s.ui.responseContent ++ joinAll (events.filterMap deltaText) := by
  induction events generalizing s with
  | nil => simp [joinAll, String.append_empty]
  | cons e es ih =>
      cases e with
      | other =>
          simpa [stepEvent, isTextDelta, deltaText] using ih s
      | textDelta d =>
          by_cases h : s.firstResponse = true
          · have := ih { firstResponse := false
                         ui := { s.ui with
                                   thinkingShown := false
                                   responseSent := true
                                   replacements := s.ui.replacements + 1
                                   responseContent := s.ui.responseContent ++ d } }
            simpa [stepEvent, isTextDelta, deltaText, h, joinAll,
                   String.append_assoc] using this
          · have hf : s.firstResponse = false := by
              cases hsf : s.firstResponse
              · rfl
              · exact absurd hsf h
            have := ih { s with ui := { s.ui with responseContent := s.ui.responseContent ++ d } }
            simpa [stepEvent, isTextDelta, deltaText, hf, joinAll,
                   String.append_assoc] using this

/-! ## Claim theorems -/

/-- C1: for every prior history `H` and new user message `m`, a
successful turn of `on_message` leaves the stored chat history equal to
`H` followed by exactly one user entry with content `m` and one
assistant entry with the turn's final text (the concatenation of the
streamed deltas), preserving the order of `H` and appending nothing
else. -/
theorem on_message_success_history :
    ∀ (stored : List ChatMsg) (m : String) (events : List StreamEvent),
      (onMessage stored m (RunOutcome.completes events)).sessionHistory =
        stored ++ [⟨Role.user, m⟩, ⟨Role.assistant, (runLoop events).ui.responseContent⟩] ∧
      (runLoop events).ui.responseContent = joinAll (events.filterMap deltaText) := by
  intro stored m events
  constructor
  · simp [onMessage]
  · have h := (stepEvent_foldl_spec events initLoopState).2.2.2.2
    simpa [runLoop, initLoopState, String.empty_append] using h

/-- C4: `get_student_info` returns the formatted directory sentence for
ids 1-4 and the fixed "no student found" sentence, containing the
queried id, for every other integer id; being a total function it never
fails. -/
theorem student_info_spec :
    get_student_info 1 = "Student ID: 1, Name: John Doe, Age: 20, Major: Computer Science." ∧
    get_student_info 2 = "Student ID: 2, Name: Jane Smith, Age: 22, Major: Mathematics." ∧
    get_student_info 3 = "Student ID: 3, Name: Alice Johnson, Age: 21, Major: Physics." ∧
    get_student_info 4 = "Student ID: 4, Name: Bob Brown, Age: 23, Major: Chemistry." ∧
    ∀ sid : Int, sid ≠ 1 → sid ≠ 2 → sid ≠ 3 → sid ≠ 4 →
      get_student_info sid = "No student found with ID " ++ toString sid ++ "." := by
  refine ⟨by decide, by decide, by decide, by decide, ?_⟩
  intro sid h1 h2 h3 h4
  have hnone : students sid = none := by
    unfold students
    split <;> simp_all
  unfold get_student_info
  rw [hnone]

/-- C4 witness: the theorem applied at the concrete miss id 7. -/
theorem student_info_spec_witness :
    get_student_info 7 = "No student found with ID 7." := by
  have h := student_info_spec.2.2.2.2 7 (by decide) (by decide) (by decide) (by decide)
  rw [h]
  decide

/-- C6: in every streaming turn, the placeholder → live-message
replacement fires exactly once when at least one text delta is emitted
(and never otherwise), and it is triggered by the first delta: the
replacement count is 0 after any delta-free prefix and becomes 1 the
moment the first delta is processed, no matter how many deltas follow. -/
theorem streaming_single_replacement :
    ∀ events : List StreamEvent,
      (runLoop events).ui.replacements = (if events.any isTextDelta then 1 else 0) ∧
      ∀ (pre : List StreamEvent) (d : String) (post : List StreamEvent),
        events = pre ++ StreamEvent.textDelta d :: post →
        pre.any isTextDelta = false →
        (runLoop pre).ui.replacements = 0 ∧
        (runLoop (pre ++ [StreamEvent.textDelta d])).ui.replacements = 1 := by
  intro events
  constructor
  · have h := (stepEvent_foldl_spec events initLoopState).2.1
    simpa [runLoop, initLoopState] using h
  · intro pre d post _ hpre
    constructor
    · have h := (stepEvent_foldl_spec pre initLoopState).2.1
      simpa [runLoop, initLoopState, hpre] using h
    · have h := (stepEvent_foldl_spec (pre ++ [StreamEvent.textDelta d]) initLoopState).2.1
      simpa [runLoop, initLoopState, hpre, isTextDelta] using h

/-- C6 witness: the theorem applied to the concrete stream
`[other, delta "a", delta "b"]`, whose delta-free prefix is `[other]`. -/
theorem streaming_single_replacement_witness :
    (runLoop [StreamEvent.other]).ui.replacements = 0 ∧
    (runLoop [StreamEvent.other, StreamEvent.textDelta "a"]).ui.replacements = 1 :=
  (streaming_single_replacement
      [StreamEvent.other, StreamEvent.textDelta "a", StreamEvent.textDelta "b"]).2
    [StreamEvent.other] "a" [StreamEvent.textDelta "b"] rfl (by decide)

/-- C8: the session-end write truncates `chat_history.json` — the
resulting file content is independent of whatever the file held before —
and serializes the full history pretty-printed; for the one-element
history `[{role: user, content: "hi"}]` the file holds exactly that
array, rendered with `indent=4`. -/
theorem session_end_persistence :
    ∀ (prev prev2 : String) (h : List ChatMsg),
      end_session prev h = end_session prev2 h ∧
      end_session prev h = dumpHistory h ∧
      end_session prev [⟨Role.user, "hi"⟩] =
        "[\n    \x7b\n        \"role\": \"user\",\n        \"content\": \"hi\"\n    \x7d\n]" := by
  intro prev prev2 h
  refine ⟨rfl, rfl, ?_⟩
  show dumpHistory [⟨Role.user, "hi"⟩] = _
  decide

/-- C10 counterexample: a turn whose run raises, arriving on an empty
stored history, leaves the session history empty — the user message
`"hi"` is not in it, contrary to the claim (line 163's
`cl.user_session.get("chat_history") or []` built a fresh list, and the
failure path never stores it back). -/
theorem failed_first_turn_loses_user_message :
    (onMessage [] "hi" (RunOutcome.raisesAfter [])).sessionHistory = [] ∧
    ChatMsg.mk Role.user "hi" ∉ (onMessage [] "hi" (RunOutcome.raisesAfter [])).sessionHistory := by
  decide

/-- C10 amended: when the orchestrator run raises, a non-empty prior
history gains exactly the user entry and no assistant entry (neither the
generic error text nor any partial response); an empty prior history
stays empty, the user message being lost with the fresh unsaved list. -/
theorem failed_turn_history :
    ∀ (stored : List ChatMsg) (m : String) (events : List StreamEvent),
      (onMessage stored m (RunOutcome.raisesAfter events)).sessionHistory =
        (if stored.isEmpty then [] else stored ++ [⟨Role.user, m⟩]) := by
  intro stored m events
  cases stored <;> simp [onMessage]

/-- C7 counterexample: a turn whose run raises before any delta leaves
the `"Thinking..."` placeholder visible next to the generic message —
the generic message is not the only visible output (the `except` branch
at chatbot.py lines 199-203 never removes the placeholder). -/
theorem turn_error_extra_output :
    visibleTexts (onMessage [] "hi" (RunOutcome.raisesAfter [])).ui =
      [thinkingText, genericError] ∧
    visibleTexts (onMessage [] "hi" (RunOutcome.raisesAfter [])).ui ≠ [genericError] := by
  decide

/-- C7 amended: an unhandled exception during the streamed run is caught
at the turn boundary (the handler is total) and the response message
content becomes the generic error text; when at least one text delta
preceded the failure that generic message is the only visible output,
but when the failure comes before the first delta the `"Thinking..."`
placeholder also remains visible. -/
theorem turn_error_generic_output :
    ∀ (stored : List ChatMsg) (m : String) (events : List StreamEvent),
      (onMessage stored m (RunOutcome.raisesAfter events)).ui.responseContent = genericError ∧
      (events.any isTextDelta = true →
        visibleTexts (onMessage stored m (RunOutcome.raisesAfter events)).ui = [genericError]) ∧
      (events.any isTextDelta = false →
        visibleTexts (onMessage stored m (RunOutcome.raisesAfter events)).ui =
          [thinkingText, genericError]) := by
  intro stored m events
  have hthink := (stepEvent_foldl_spec events initLoopState).2.2.1
  refine ⟨by simp [onMessage], ?_, ?_⟩
  · intro hany
    simp only [runLoop, initLoopState] at hthink
    simp [onMessage, visibleTexts, runLoop, initLoopState, hany] at hthink ⊢
    simp [hthink]
  · intro hany
    simp only [runLoop, initLoopState] at hthink
    simp [onMessage, visibleTexts, runLoop, initLoopState, hany] at hthink ⊢
    simp [hthink]

/-- C7 witness: the amended theorem applied to a failure arriving after
one delta; the generic message is then the only visible output. -/
theorem turn_error_generic_output_witness :
    visibleTexts (onMessage [] "hi" (RunOutcome.raisesAfter [StreamEvent.textDelta "x"])).ui =
      [genericError] :=
  (turn_error_generic_output [] "hi" [StreamEvent.textDelta "x"]).2.1 (by decide)

set_option maxRecDepth 10000 in
/-- C9 counterexample: in an environment where every variable is absent,
startup exits naming `GEMINI_API_KEY`; the claim instance for the
(equally absent) `GEMINI_API_URL` fails, since that variable is not
named anywhere in the emitted diagnostic. -/
theorem env_all_missing_names_first_only :
    loadSecrets (fun _ => none) = Except.error (diagMsg "GEMINI_API_KEY", 1) ∧
    ¬ "GEMINI_API_URL".data <:+: (diagMsg "GEMINI_API_KEY").data := by
  constructor
  · rfl
  · decide

/-- C9 amended: startup exits with status 1 and the diagnostic of the
first absent-or-empty variable in the order `GEMINI_API_KEY`,
`GEMINI_API_URL`, `GEMINI_API_MODEL`, `WEATHER_API_URL`,
`WEATHER_API_KEY` — in particular naming the variable itself whenever
all earlier ones are present — and no `Secrets` value is constructed;
when every variable is present, the `Secrets` value is built from the
environment. -/
theorem startup_env_check :
    ∀ env : String → Option String,
      (∀ v, firstBlankVar env = some v →
        loadSecrets env = Except.error (diagMsg v, 1)) ∧
      (firstBlankVar env = none →
        loadSecrets env = Except.ok
          { gemini_api_key := (env "GEMINI_API_KEY").getD ""
            gemini_api_url := (env "GEMINI_API_URL").getD ""
            gemini_api_model := (env "GEMINI_API_MODEL").getD ""
            weather_api_key := (env "WEATHER_API_KEY").getD ""
            weather_api_url := (env "WEATHER_API_URL").getD "" }) := by
  intro env
  cases h1 : isBlank (env "GEMINI_API_KEY") <;>
  cases h2 : isBlank (env "GEMINI_API_URL") <;>
  cases h3 : isBlank (env "GEMINI_API_MODEL") <;>
  cases h4 : isBlank (env "WEATHER_API_URL") <;>
  cases h5 : isBlank (env "WEATHER_API_KEY") <;>
    simp_all [loadSecrets, firstBlankVar, requiredVarNames, List.find?]

/-- C9 witness: the amended theorem applied to an environment missing
exactly `GEMINI_API_MODEL` (the two earlier variables present): the exit
names `GEMINI_API_MODEL` with status 1. -/
theorem startup_env_check_witness :
    loadSecrets (fun v => if v = "GEMINI_API_MODEL" then none else some "x") =
      Except.error (diagMsg "GEMINI_API_MODEL", 1) :=
  (startup_env_check (fun v => if v = "GEMINI_API_MODEL" then none else some "x")).1
    "GEMINI_API_MODEL" (by decide)

/-- C5 counterexample: at a concrete configuration and location, the URL
the code builds (chatbot.py line 56) is not the single-slash URL the
claim states: the base is joined to `current.json` by two slashes. -/
theorem weather_url_counterexample :
    weatherRequestUrl ⟨"g", "u", "m", "wk", "https://api.example"⟩ "London" ≠
      specWeatherUrl ⟨"g", "u", "m", "wk", "https://api.example"⟩ "London" := by
  decide

/-- C5 amended: for every configuration and location the weather tool
consults its HTTP client at exactly one URL, namely
`{WEATHER_API_URL}//current.json?key={WEATHER_API_KEY}&q={location}` —
the configured base joined by a double slash — with `key` and `q` as
query parameters. -/
theorem weather_url_shape :
    ∀ (sec : Secrets) (loc : String),
      weatherRequestUrl sec loc =
        sec.weather_api_url ++ "//current.json?key=" ++ sec.weather_api_key ++ "&q=" ++ loc ∧
      ∀ http http2 : String → Except PyError HttpResponse,
        http (weatherRequestUrl sec loc) = http2 (weatherRequestUrl sec loc) →
        get_current_weather sec http loc = get_current_weather sec http2 loc := by
  intro sec loc
  refine ⟨rfl, ?_⟩
  intro http http2 h
  unfold get_current_weather
  rw [h]

/-- C5 witness: two clients that agree only at the built URL produce the
same tool output at a concrete configuration and location. -/
theorem weather_url_shape_witness :
    get_current_weather ⟨"g", "u", "m", "wk", "wu"⟩
      (fun u => if u = "wu//current.json?key=wk&q=London"
        then Except.error PyError.requestException
        else Except.ok ⟨200, Except.error PyError.jsonDecodeError⟩) "London" =
    get_current_weather ⟨"g", "u", "m", "wk", "wu"⟩
      (fun _ => Except.error PyError.requestException) "London" :=
  (weather_url_shape ⟨"g", "u", "m", "wk", "wu"⟩ "London").2 _ _ (by rfl)

/-- Bind on a successful `Except` computation reduces to the
continuation. -/
theorem exceptBindOk {α β ε : Type} (a : α) (f : α → Except ε β) :
    (Except.ok a >>= f : Except ε β) = f a := rfl

/-- Bind on a failed `Except` computation propagates the error. -/
theorem exceptBindError {α β ε : Type} (e : ε) (f : α → Except ε β) :
    (Except.error e >>= f : Except ε β) = Except.error e := rfl

/-- `pure` into `Except` is `Except.ok`. -/
theorem exceptPureOk {α ε : Type} (a : α) :
    (pure a : Except ε α) = Except.ok a := rfl

/-- Mapping over a successful `Except` computation. -/
theorem exceptMapOk {α β ε : Type} (g : α → β) (a : α) :
    (g <$> Except.ok a : Except ε β) = Except.ok (g a) := rfl

/-- Mapping over a failed `Except` computation. -/
theorem exceptMapError {α β ε : Type} (g : α → β) (e : ε) :
    (g <$> Except.error e : Except ε β) = Except.error e := rfl

/-- C2 counterexample: a 200 response whose parsed body is an empty JSON
object makes `get_current_weather` raise a `KeyError` on `"location"` —
the exception escapes the tool boundary instead of being converted to a
string. -/
theorem weather_tool_raises_counterexample :
    get_current_weather ⟨"g", "u", "m", "wk", "wu"⟩
      (fun _ => Except.ok ⟨200, Except.ok (Json.obj [])⟩) "London" =
      Except.error (PyError.keyError "location") := by
  rfl

/-- C2 amended: only the non-200 status is handled inside the tool
(returning the fixed error string); a raised request exception, a
malformed JSON body on a 200 response, or a missing/mistyped field in a
200 payload all escape `get_current_weather` as exceptions. -/
theorem weather_tool_error_paths :
    ∀ (sec : Secrets) (http : String → Except PyError HttpResponse) (loc : String),
      (∀ e, http (weatherRequestUrl sec loc) = Except.error e →
        get_current_weather sec http loc = Except.error e) ∧
      (∀ r, http (weatherRequestUrl sec loc) = Except.ok r → r.status_code ≠ 200 →
        get_current_weather sec http loc = Except.ok (weatherErrorSentence loc)) ∧
      (∀ r e, http (weatherRequestUrl sec loc) = Except.ok r → r.status_code = 200 →
        r.jsonBody = Except.error e →
        get_current_weather sec http loc = Except.error e) ∧
      (∀ r data e, http (weatherRequestUrl sec loc) = Except.ok r → r.status_code = 200 →
        r.jsonBody = Except.ok data → formatWeather data = Except.error e →
        get_current_weather sec http loc = Except.error e) := by
  intro sec http loc
  refine ⟨?_, ?_, ?_, ?_⟩
  · intro e h
    simp [get_current_weather, h, exceptBindOk, exceptBindError]
  · intro r h hs
    simp [get_current_weather, h, hs, exceptBindOk, exceptBindError, exceptPureOk]
  · intro r e h hs hb
    simp [get_current_weather, h, hs, hb, exceptBindOk, exceptBindError]
  · intro r data e h hs hb hf
    simp [get_current_weather, h, hs, hb, hf, exceptBindOk, exceptBindError]

/-- C2 witness: the four error paths of the amended theorem, each at a
concrete client and location. -/
theorem weather_tool_error_paths_witness :
    get_current_weather ⟨"g", "u", "m", "wk", "wu"⟩
      (fun _ => Except.error PyError.requestException) "Paris" =
      Except.error PyError.requestException ∧
    get_current_weather ⟨"g", "u", "m", "wk", "wu"⟩
      (fun _ => Except.ok ⟨404, Except.ok Json.null⟩) "Paris" =
      Except.ok (weatherErrorSentence "Paris") ∧
    get_current_weather ⟨"g", "u", "m", "wk", "wu"⟩
      (fun _ => Except.ok ⟨200, Except.error PyError.jsonDecodeError⟩) "Paris" =
      Except.error PyError.jsonDecodeError ∧
    get_current_weather ⟨"g", "u", "m", "wk", "wu"⟩
      (fun _ => Except.ok ⟨200, Except.ok Json.null⟩) "Paris" =
      Except.error PyError.typeError :=
  ⟨(weather_tool_error_paths _ _ _).1 PyError.requestException rfl,
   (weather_tool_error_paths _ _ _).2.1 ⟨404, Except.ok Json.null⟩ rfl (by decide),
   (weather_tool_error_paths _ _ _).2.2.1 ⟨200, Except.error PyError.jsonDecodeError⟩
     PyError.jsonDecodeError rfl rfl rfl,
   (weather_tool_error_paths _ _ _).2.2.2 ⟨200, Except.ok Json.null⟩ Json.null
     PyError.typeError rfl rfl rfl rfl⟩

/-- C3: when the HTTP response status is not 200 the tool returns exactly
the fixed error sentence containing the location; when the status is 200
and the payload carries all documented `location.*` and `current.*`
fields, it returns the deterministic sentence built from exactly those
fields. -/
theorem weather_tool_output_paths :
    ∀ (sec : Secrets) (http : String → Except PyError HttpResponse)
      (loc : String) (r : HttpResponse),
      http (weatherRequestUrl sec loc) = Except.ok r →
      (r.status_code ≠ 200 →
        get_current_weather sec http loc = Except.ok (weatherErrorSentence loc)) ∧
      (∀ data f, r.status_code = 200 → r.jsonBody = Except.ok data →
        extractWeatherFields data = Except.ok f →
        get_current_weather sec http loc = Except.ok (weatherSentence f)) := by
  intro sec http loc r h
  constructor
  · intro hs
    simp [get_current_weather, h, hs, exceptBindOk, exceptBindError, exceptPureOk]
  · intro data f hs hb hf
    simp [get_current_weather, formatWeather, h, hs, hb, hf, exceptBindOk,
          exceptBindError, exceptPureOk, exceptMapOk, exceptMapError]

/-- C3 witness: the theorem applied to a concrete 500 response and to a
concrete well-formed 200 payload; on the latter the output is the
sentence over the eleven extracted fields. -/
theorem weather_tool_output_paths_witness :
    get_current_weather ⟨"g", "u", "m", "wk", "wu"⟩
      (fun _ => Except.ok ⟨500, Except.ok Json.null⟩) "Quito" =
      Except.ok (weatherErrorSentence "Quito") ∧
    get_current_weather ⟨"g", "u", "m", "wk", "wu"⟩
      (fun _ => Except.ok ⟨200, Except.ok sampleWeatherPayload⟩) "London" =
      Except.ok (weatherSentence
        ⟨Json.str "London", Json.str "England", Json.str "United Kingdom",
         Json.str "2023-10-15 14:30", Json.num 18, Json.str "Partly cloudy",
         Json.num 17, Json.num 15, Json.str "SW", Json.num 65, Json.num 4⟩) :=
  ⟨(weather_tool_output_paths ⟨"g", "u", "m", "wk", "wu"⟩ _ "Quito"
      ⟨500, Except.ok Json.null⟩ rfl).1 (by decide),
   (weather_tool_output_paths ⟨"g", "u", "m", "wk", "wu"⟩ _ "London"
      ⟨200, Except.ok sampleWeatherPayload⟩ rfl).2 sampleWeatherPayload _ rfl rfl rfl⟩
